import Mathlib

/-!
Verification of the `ai_wraper` repository (a flyt-based LLM workflow
application written in Go) against its natural-language specification.

The Go values that flow through the shared store are dynamically typed
(`any`); they are embedded here as the inductive type `Value`.  The
shared store is a key/value association list with the Go-map semantics
of unique keys (lookup takes the first binding, set replaces in place).
Machine integers do not occur in the verified fragment; all arithmetic
is on `Nat` and `String`.

Source files embedded:
  - `nodes.go` (current revision, with the Tavily search node) and the
    older template revision of the same file (mock search node);
  - `utils/llm.go` (request construction) and `utils/helpers.go`
    (`GetHistory`);
The flyt engine itself (node lifecycle, retry/fallback, Flow.Run,
BatchNode) and the `flow.go` wiring are not part of the repository
sources available here; those definitions are modelled from the spec
and are marked as such in their doc comments.
-/

namespace AiWraper

mutual

/-- Embedding of the dynamically typed Go values (`any`) that this
program stores in the shared store or passes between node phases.
Each constructor corresponds to one concrete Go type used by the code. -/
inductive Value where
  | VNil : Value
  | VStr (s : String) : Value
  | VStrList (l : List String) : Value
  | VStrMap (m : List (String × String)) : Value
  | VList (l : List Value) : Value
  | VMap (m : List (String × Value)) : Value
  | VConvs (cs : List Conversation) : Value
  | VHist (h : History) : Value

/-- Go struct `Conversation { User string; AI any }` from `nodes.go`. -/
inductive Conversation where
  | mk (user : String) (ai : Value) : Conversation

/-- Go struct `History { Conversations []Conversation }` from `nodes.go`. -/
inductive History where
  | mk (conversations : List Conversation) : History

end

open Value

def Conversation.user : Conversation → String
  | .mk u _ => u

def Conversation.ai : Conversation → Value
  | .mk _ a => a

def History.conversations : History → List Conversation
  | .mk cs => cs

/-- The shared store: a mapping from string keys to values
(`flyt.SharedStore`, spec section 3). -/
abbrev Store := List (String × Value)

/-- Association-list lookup with Go-map semantics (keys unique, first
binding wins).  Used both for the shared store `Get` and for indexing
the `map[string]T` literals the nodes build. -/
def assocLookup {α : Type} : List (String × α) → String → Option α
  | [], _ => none
  | (k', v) :: rest, k => if k' = k then some v else assocLookup rest k

/-- `SharedStore.Get`: `Get(key) → (value, found-bool)`. -/
def storeGet (s : Store) (k : String) : Option Value :=
  assocLookup s k

/-- `SharedStore.Set`: replaces the binding for `k` if present,
otherwise adds it. -/
def storeSet : Store → String → Value → Store
  | [], k, v => [(k, v)]
  | (k', v') :: rest, k, v =>
    if k' = k then (k, v) :: rest else (k', v') :: storeSet rest k v

/-- Go `v == nil` test on an interface value. -/
def Value.isNil : Value → Bool
  | VNil => true
  | _ => false

/-- Go type assertion `v.(string)`; a failed bare assertion panics,
which is embedded as an error result. -/
def asString : Value → Except String String
  | VStr s => .ok s
  | _ => .error "panic: interface conversion"

/-- Go type assertion `v.(map[string]any)`. -/
def asMap : Value → Except String (List (String × Value))
  | VMap m => .ok m
  | _ => .error "panic: interface conversion"

/-- Go type assertion `v.(map[string]string)`. -/
def asStrMap : Value → Except String (List (String × String))
  | VStrMap m => .ok m
  | _ => .error "panic: interface conversion"

/-- Go type assertion `v.([]Conversation)`. -/
def asConvs : Value → Except String (List Conversation)
  | VConvs cs => .ok cs
  | _ => .error "panic: interface conversion"

/-- Go type assertion `v.([]any)`. -/
def asList : Value → Except String (List Value)
  | VList l => .ok l
  | _ => .error "panic: interface conversion"

/-! ## History normalization (`getHistory` in `nodes.go`,
`GetHistory` in `utils/helpers.go`; the two bodies are identical). -/

/-- One iteration of the best-effort `[]interface{}` conversion inside
`getHistory`: a `map[string]interface{}` item becomes a `Conversation`
(`User` taken when it is a string, `AI` taken when present). -/
def convFromMap (m : List (String × Value)) : Conversation :=
  Conversation.mk
    (match assocLookup m "User" with
      | some (VStr u) => u
      | _ => "")
    ((assocLookup m "AI").getD VNil)

/-- The loop over a `[]interface{}` slice in `getHistory`: items that
are not `map[string]interface{}` are skipped. -/
def convsFromItems : List Value → List Conversation
  | [] => []
  | VMap m :: rest => convFromMap m :: convsFromItems rest
  | _ :: rest => convsFromItems rest

/-- The type switch of `getHistory` on the raw stored value. -/
def getHistoryVal : Value → History
  | VHist h => h
  | VConvs cs => History.mk cs
  | VNil => History.mk []
  | VList l => History.mk (convsFromItems l)
  | _ => History.mk []

/-- `getHistory(shared)`: reads the `history` key (absent reads as a
nil interface, as in Go) and normalizes it. -/
def getHistory (s : Store) : History :=
  getHistoryVal ((storeGet s "history").getD VNil)

/-- `saveHistory(shared, h)` from `nodes.go`. -/
def saveHistory (s : Store) (h : History) : Store :=
  storeSet s "history" (VHist h)

/-! ## LLM request construction (`utils/llm.go`).

Only the pure request-building fragment is embedded; the HTTP transport
and JSON wire encoding are I/O.  The floating-point `Temperature`
configuration field is passed through unchanged by the code and is not
modelled. -/

/-- Configuration `LLMConfig` from `utils/llm.go` (`Model`,
`MaxTokens`; the float `Temperature` is not modelled). -/
structure LLMConfig where
  model : String
  maxTokens : Nat

/-- `DefaultLLMConfig()`: uses the package-level `DefaultModel` when
set, otherwise `gemini-2.5-flash`.  The mutable package global is
passed as the `defaultModel` argument. -/
def DefaultLLMConfig (defaultModel : String) : LLMConfig :=
  { model := if defaultModel = "" then "gemini-2.5-flash" else defaultModel
    maxTokens := 0 }

/-- The fixed suffix appended by `CallLLMWithConfig` (lines 74-77 of
`utils/llm.go`). -/
def markdownSuffix : String := "\n always answer using markdown format."

/-- The parts of the Gemini `generateContent` request body that the
code computes: the single user text part, whether the `tools` section
with `google_search` is attached, and the optional
`maxOutputTokens`. -/
structure GenRequestBody where
  text : String
  useSearchTools : Bool
  maxOutputTokens : Option Nat

/-- The request body built by `CallLLMWithConfig(prompt, config,
useSearch)` before it is marshalled and posted. -/
def callLLMWithConfigRequest (prompt : String) (config : LLMConfig)
    (useSearch : Bool) : GenRequestBody :=
  { text := prompt ++ markdownSuffix
    useSearchTools := useSearch
    maxOutputTokens := if config.maxTokens > 0 then some config.maxTokens else none }

/-- The request body built by `CallLLM(prompt)`. -/
def callLLMRequest (defaultModel : String) (prompt : String) : GenRequestBody :=
  callLLMWithConfigRequest prompt (DefaultLLMConfig defaultModel) false

/-- The request body built by `CallLLMWithSearch(prompt)`. -/
def callLLMWithSearchRequest (defaultModel : String) (prompt : String) :
    GenRequestBody :=
  callLLMWithConfigRequest prompt (DefaultLLMConfig defaultModel) true

/-! ## Per-call HTTP client timeouts (claim C6).

Each external call site constructs (or implicitly uses) a Go
`http.Client`; the only datum the claim depends on is the client's
`Timeout` field, in seconds, where `0` is Go's "no timeout". -/

/-- The timeout configuration of a Go `http.Client` at one external
call site (`Timeout` in seconds; `0` means unbounded). -/
structure HTTPClientConfig where
  timeoutSeconds : Nat

/-- `CallLLMWithConfig` client: `&http.Client{Timeout: 60 * time.Second}`. -/
def llmTextClient : HTTPClientConfig := ⟨60⟩

/-- `CallLLMWithImages` client: `&http.Client{Timeout: 90 * time.Second}`. -/
def llmImagesClient : HTTPClientConfig := ⟨90⟩

/-- The Tavily search call in `CreateSearchNode`: `http.Post(...)`
uses `http.DefaultClient`, whose `Timeout` is the zero value. -/
def tavilySearchClient : HTTPClientConfig := ⟨0⟩

/-- Every per-call HTTP client the program uses for an external
LLM/search service, one entry per call site. -/
def externalCallClients : List HTTPClientConfig :=
  [llmTextClient, llmImagesClient, tavilySearchClient]

/-! ## Node lifecycle and Flow engine.

The flyt library that implements these is a dependency of the
repository and its sources are not available here; the engine is
modelled from the spec (sections 4.2 and 4.4). -/

/-- Modelled from the spec: a flyt node (spec section 3, "Node") — a
prepare function (receives the store and could mutate it, hence the
state-passing type), an execute function (receives only the prepared
value), a post function (the routing/writing phase), a maximum retry
count and an optional fallback. -/
structure NodeDef where
  id : String
  prep : Store → Except String (Store × Value)
  exec : Value → Except String Value
  post : Store → Value → Value → Except String (Store × String)
  maxRetries : Nat
  fallback : Option (Value → Except String Value)

/-- Modelled from the spec: the conventional "continue to the single
next step" action (`flyt.DefaultAction`, spec section 4.4). -/
def DefaultAction : String := "default"

/-- Modelled from the spec: the Execute attempt loop — one initial
attempt plus up to `retriesLeft` re-invocations (spec section 4.2,
"retries up to maxRetries additional times"; the retry delay does not
affect results and is not modelled). -/
def attemptExec (n : NodeDef) (p : Value) : Nat → Except String Value
  | 0 => n.exec p
  | Nat.succ k =>
    match n.exec p with
    | .ok r => .ok r
    | .error _ => attemptExec n p k

/-- Modelled from the spec: execute-with-retry followed by the
fallback when all attempts fail (spec section 4.2). -/
def execWithRetry (n : NodeDef) (p : Value) : Except String Value :=
  match attemptExec n p n.maxRetries with
  | .ok r => .ok r
  | .error e =>
    match n.fallback with
    | some g => g p
    | none => .error e

/-- Modelled from the spec: the Post phase of a visit, with the
node/phase identity attached to a failure (spec section 7). -/
def postPhase (n : NodeDef) (s : Store) (p r : Value) :
    Except String (Store × String) :=
  match n.post s p r with
  | .error e => .error ("node " ++ n.id ++ " post: " ++ e)
  | .ok out => .ok out

/-- Modelled from the spec: one visit of a node — Prepare, then
Execute with retry/fallback, then Post, failures tagged with the node
identity and phase; Prepare and Post are never retried (spec sections
4.2 and 7). -/
def runNodeVisit (n : NodeDef) (s : Store) : Except String (Store × String) :=
  match n.prep s with
  | .error e => .error ("node " ++ n.id ++ " prep: " ++ e)
  | .ok (s1, p) =>
    match execWithRetry n p with
    | .error e => .error ("node " ++ n.id ++ " exec: " ++ e)
    | .ok r => postPhase n s1 p r

/-- Modelled from the spec: a Flow — a start node, a registry of nodes
by identity, and `(source, action) → destination` edges (spec
section 3, "Flow"). -/
structure Flow where
  start : String
  nodes : List (String × NodeDef)
  edges : List ((String × String) × String)

/-- Edge lookup in the flow graph. -/
def edgeLookup : List ((String × String) × String) → String → String → Option String
  | [], _, _ => none
  | ((src, act), dst) :: rest, cur, a =>
    if src = cur ∧ act = a then some dst else edgeLookup rest cur a

/-- Modelled from the spec: `Flow.Run` (spec section 4.4 algorithm).
An action with no matching edge terminates the run successfully.  The
engine imposes no visit-count limit, so the embedding takes explicit
fuel; the returned list is the sequence of node identities visited. -/
def flowRun : Nat → Flow → String → Store → Except String (Store × List String)
  | 0, _, _, _ => .error "flow: out of fuel"
  | Nat.succ fuel, f, cur, s =>
    match assocLookup f.nodes cur with
    | none => .error ("flow: unknown node " ++ cur)
    | some n =>
      match runNodeVisit n s with
      | .error e => .error e
      | .ok (s', a) =>
        match edgeLookup f.edges cur a with
        | none => .ok (s', [cur])
        | some nxt =>
          match flowRun fuel f nxt s' with
          | .error e => .error e
          | .ok (s2, tr) => .ok (s2, cur :: tr)

/-! ## Node implementations (`nodes.go`).

The node constructors in the source configure no retry count and no
fallback (`flyt.WithMaxRetries`/fallback options are never used), so
every node below carries `maxRetries := 0` and `fallback := none`;
all their Execute functions are deterministic, so extra attempts
could not change any result.

The external collaborators (spec section 6) appear as parameters: the
`GEMINI_API_KEY` / `TAVILY_API_KEY` environment values (Go `os.Getenv`
returns the empty string when unset) and the text-completion / search
transports. -/

/-- Approximation of Go `%v` rendering, for the value shapes this
program actually formats (`Conversation.AI` fields and batch results,
which are strings); other shapes render as a placeholder. -/
def showValue : Value → String
  | VNil => "<nil>"
  | VStr s => s
  | _ => "<value>"

/-- The history-serialization loop in the answer node's Execute:
`"%d. User: %s\n   AI: %v\n"` per entry, 1-based. -/
def serializeConvsFrom (i : Nat) : List Conversation → String
  | [] => ""
  | c :: rest =>
    toString i ++ ". User: " ++ c.user ++ "\n   AI: " ++ showValue c.ai ++ "\n"
      ++ serializeConvsFrom (i + 1) rest

def serializeConvs (cs : List Conversation) : String :=
  serializeConvsFrom 1 cs

/-- The Execute function of `CreateAnswerNode` (current `nodes.go`):
asserts the prepared map's `question`, `history` and `context`
entries, checks the API key, builds the prompt and calls the LLM.
`llm` abstracts `utils.CallLLM` (spec section 6, `TextComplete`). -/
def answerExec (geminiKey : String) (llm : String → Except String String)
    (prepResult : Value) : Except String Value := do
  let data ← asMap prepResult
  let question ← asString ((assocLookup data "question").getD VNil)
  let history ← asConvs ((assocLookup data "history").getD VNil)
  let context ← asString ((assocLookup data "context").getD VNil)
  if geminiKey = "" then
    Except.error "GEMINI_API_KEY not set"
  else
    let prompt :=
      "Context: " ++ context ++ "\nAnswer this question: " ++ question
    let prompt :=
      if history.length > 0 then
        "Context: " ++ context ++ "\nHistory:\n" ++ serializeConvs history
          ++ "\nAnswer this question: " ++ question
      else prompt
    let response ← llm prompt
    return VStr response

/-- `CreateAnswerNode` (current `nodes.go`): Prepare reads `question`
(failing when absent) and the normalized history; Post stores the
answer and appends the turn to `history`. -/
def answerNode (geminiKey : String) (llm : String → Except String String) :
    NodeDef where
  id := "answer"
  prep := fun s =>
    match storeGet s "question" with
    | none => .error "no question found in shared store"
    | some q =>
      .ok (s, VMap [("question", q),
                    ("history", VConvs (getHistory s).conversations)])
  exec := answerExec geminiKey llm
  post := fun s _ r => do
    let s1 := storeSet s "answer" r
    let q ← asString ((storeGet s1 "question").getD VNil)
    let conv := Conversation.mk q r
    let h := getHistory s1
    return (saveHistory s1 (History.mk (h.conversations ++ [conv])), DefaultAction)
  maxRetries := 0
  fallback := none

/-- `CreateAnalyzeNode` (identical in both revisions of `nodes.go`):
Prepare reads `question` (failing when absent) and `search_results`
(nil when absent); Execute decides `"search"` when the prepared
`search_results` entry is nil and `"process"` otherwise; Post routes
by that string. -/
def analyzeNode : NodeDef where
  id := "analyze"
  prep := fun s =>
    match storeGet s "question" with
    | none => .error "no question found in shared store"
    | some q =>
      .ok (s, VMap [("question", q),
                    ("search_results", (storeGet s "search_results").getD VNil)])
  exec := fun pr => do
    let data ← asMap pr
    if ((assocLookup data "search_results").getD VNil).isNil then
      return VStr "search"
    else
      return VStr "process"
  post := fun s _ r => (asString r).map (fun a => (s, a))
  maxRetries := 0
  fallback := none

/-- `CreateSearchNode` of the template revision of `nodes.go` (mock
search): Execute returns `"Mock search results for: <question>"`; Post
writes `search_results` and routes back to `"analyze"`. -/
def searchNodeMock : NodeDef where
  id := "search"
  prep := fun s =>
    match storeGet s "question" with
    | none => .error "no question found in shared store"
    | some q => .ok (s, q)
  exec := fun pr =>
    if pr.isNil then
      .error "no question to search for"
    else
      (asString pr).map (fun q => VStr ("Mock search results for: " ++ q))
  post := fun s _ r => .ok (storeSet s "search_results" r, "analyze")
  maxRetries := 0
  fallback := none

/-- One parsed result of the Tavily search response
(`title`/`url`/`content` fields of the response JSON). -/
structure SearchResult where
  title : String
  url : String
  content : String

/-- The result-formatting loop of the Tavily search node's Execute:
`"Source %d: %s (%s)\nContent: %s\n\n"` per result, 1-based. -/
def formatResultsFrom (i : Nat) : List SearchResult → String
  | [] => ""
  | r :: rest =>
    "Source " ++ toString i ++ ": " ++ r.title ++ " (" ++ r.url
      ++ ")\nContent: " ++ r.content ++ "\n\n" ++ formatResultsFrom (i + 1) rest

/-- `CreateSearchNode` of the current `nodes.go` (Tavily web search).
`searchHTTP apiKey query` abstracts the marshalled `http.Post` to
`https://api.tavily.com/search` together with status checking and
response parsing (spec section 6, `SearchWeb`); the surrounding pure
logic (prepare checks, empty-result message, formatting, post) is
embedded from the source. -/
def searchNodeTavily (tavilyKey : String)
    (searchHTTP : String → String → Except String (List SearchResult)) :
    NodeDef where
  id := "search"
  prep := fun s =>
    match storeGet s "question" with
    | none => .error "no question found in shared store"
    | some q =>
      if tavilyKey = "" then
        .error "TAVILY_API_KEY environment variable not set"
      else
        (asString q).map (fun qs =>
          (s, VStrMap [("question", qs), ("apiKey", tavilyKey)]))
  exec := fun pr => do
    let data ← asStrMap pr
    let question := (assocLookup data "question").getD ""
    let apiKey := (assocLookup data "apiKey").getD ""
    let results ← searchHTTP apiKey question
    if results.length = 0 then
      return VStr "No relevant search results found."
    else
      return VStr ("Web search results:\n\n" ++ formatResultsFrom 1 results)
  post := fun s _ r => .ok (storeSet s "search_results" r, "analyze")
  maxRetries := 0
  fallback := none

/-- `CreateProcessNode` of the current `nodes.go`: Execute returns the
prepared `search_results` string itself; Post writes it under
`context` and emits the default action. -/
def processNode : NodeDef where
  id := "process"
  prep := fun s =>
    .ok (s, VMap [("question", (storeGet s "question").getD VNil),
                  ("search_results", (storeGet s "search_results").getD VNil)])
  exec := fun pr => do
    let data ← asMap pr
    let searchResults ← asString ((assocLookup data "search_results").getD VNil)
    return VStr searchResults
  post := fun s _ r => .ok (storeSet s "context" r, DefaultAction)
  maxRetries := 0
  fallback := none

/-- `CreateProcessNode` of the template revision of `nodes.go`:
Execute ignores the prepared data and returns the fixed string
`"Processed information from search results"`; Post writes it under
`context`. -/
def processNodeMock : NodeDef where
  id := "process"
  prep := fun s =>
    .ok (s, VMap [("question", (storeGet s "question").getD VNil),
                  ("search_results", (storeGet s "search_results").getD VNil)])
  exec := fun pr => do
    let _ ← asMap pr
    return VStr "Processed information from search results"
  post := fun s _ r => .ok (storeSet s "context" r, DefaultAction)
  maxRetries := 0
  fallback := none

/-- Modelled from the spec: the store keys of the batch items/results
collections (`flyt.KeyItems`/`flyt.KeyResults`, library constants not
under the available sources; spec section 4.3 "named items/results
collections"). -/
def KeyItems : String := "items"

def KeyResults : String := "results"

/-- `CreateLoadItemsNode` (identical in both revisions): no Prepare is
configured, which the engine treats as preparing a nil value; Execute
returns the five sample items; Post stores them under the items
key. -/
def loadItemsNode : NodeDef where
  id := "load_items"
  prep := fun s => .ok (s, VNil)
  exec := fun _ =>
    .ok (VStrList ["Item 1", "Item 2", "Item 3", "Item 4", "Item 5"])
  post := fun s _ r => .ok (storeSet s KeyItems r, DefaultAction)
  maxRetries := 0
  fallback := none

/-- The aggregation loop of `CreateAggregateResultsNode`:
`"%d. %v\n"` per result, 1-based. -/
def aggregateLines (i : Nat) : List Value → String
  | [] => ""
  | r :: rest => toString i ++ ". " ++ showValue r ++ "\n" ++ aggregateLines (i + 1) rest

/-- `CreateAggregateResultsNode` (identical in both revisions):
Prepare reads the results collection (failing when absent), Execute
formats it, Post stores the text under `final_results`. -/
def aggregateNode : NodeDef where
  id := "aggregate"
  prep := fun s =>
    match storeGet s KeyResults with
    | none => .error "no results found"
    | some r => .ok (s, r)
  exec := fun pr => do
    let results ← asList pr
    return VStr ("Aggregated Results:\n" ++ aggregateLines 1 results)
  post := fun s _ r => .ok (storeSet s "final_results" r, DefaultAction)
  maxRetries := 0
  fallback := none

/-- The per-item function passed to `flyt.NewBatchNode` by
`CreateBatchProcessNode`: asserts the item is a string and prefixes it
with `"Processed: "`. -/
def batchItemProcess (item : Value) : Except String Value :=
  (asString item).map (fun s => VStr ("Processed: " ++ s))

/-- Modelled from the spec: the agent-mode wiring built by
`CreateAgentFlow` in `flow.go`, which is not among the available
sources — the cyclic graph `analyze --search--> search --analyze-->
analyze --process--> process --default--> (terminal)` of spec
section 8, over the nodes embedded above (the mock search node, whose
Execute is pure; both revisions share the same Post). -/
def agentFlow : Flow where
  start := "analyze"
  nodes := [("analyze", analyzeNode),
            ("search", searchNodeMock),
            ("process", processNode)]
  edges := [(("analyze", "search"), "search"),
            (("search", "analyze"), "analyze"),
            (("analyze", "process"), "process")]

/-! ## Concurrent BatchNode (spec section 4.3).

`flyt.NewBatchNode(processFunc, true)` dispatches every item to its
own task and joins them; the library sources are not available here.
Modelled from the spec: each item's result is written into an
index-addressed slot (never append-on-completion), the order in which
item tasks complete is an arbitrary sequence of slot writes, and the
batch fails with the lowest-index error after all items finish. -/

/-- Modelled from the spec: one item task completing — it writes the
result of the per-item function on item `i` into slot `i` (a write
outside the slot range cannot occur for indices of real tasks and is a
no-op). -/
def fillSlot (f : Value → Except String Value) (items : List Value)
    (slots : List (Option (Except String Value))) (i : Nat) :
    List (Option (Except String Value)) :=
  match items[i]? with
  | some a => slots.set i (some (f a))
  | none => slots

/-- Modelled from the spec: the item tasks completing in the arbitrary
order `ord` (a sequence of item indices), each filling its own slot. -/
def fillSlots (f : Value → Except String Value) (items : List Value) :
    List Nat → List (Option (Except String Value)) →
    List (Option (Except String Value))
  | [], slots => slots
  | i :: rest, slots => fillSlots f items rest (fillSlot f items slots i)

/-- Modelled from the spec: the join — collect the slots in index
order; a slot error surfaces as the batch error (index order makes it
the lowest-index failure, spec section 4.3). -/
def collectSlots : List (Option (Except String Value)) → Except String (List Value)
  | [] => .ok []
  | none :: _ => .error "batch: missing result"
  | some (.error e) :: _ => .error e
  | some (.ok v) :: rest => (collectSlots rest).map (fun l => v :: l)

/-- Modelled from the spec: a concurrent BatchNode run over `items`
whose item tasks complete in the order `ord`. -/
def runConcurrentBatch (f : Value → Except String Value)
    (items : List Value) (ord : List Nat) : Except String (List Value) :=
  collectSlots (fillSlots f items ord (List.replicate items.length none))

/-! ## Auxiliary definitions used by the statements below. -/

/-- A node's Prepare phase never mutates the store: whenever it
succeeds, the store it hands on is the store it received. -/
def PrepPreservesStore (n : NodeDef) : Prop :=
  ∀ s s' v, n.prep s = .ok (s', v) → s' = s

/-- A sample node whose Execute always fails, used to instantiate the
retry/fallback policy theorem at a concrete input. -/
def flakyNode : NodeDef where
  id := "flaky"
  prep := fun s => .ok (s, VNil)
  exec := fun _ => .error "boom"
  post := fun s _ r => .ok (storeSet s "out" r, DefaultAction)
  maxRetries := 3
  fallback := some (fun _ => .ok (VStr "fallback result"))

/-- The sample items of `CreateLoadItemsNode`, truncated to three, as
a batch input. -/
def sampleItems : List Value := [VStr "Item 1", VStr "Item 2", VStr "Item 3"]

/-- The pure result function matching `batchItemProcess` on string
items, used to instantiate the batch theorem. -/
def batchItemResult : Value → Value
  | VStr s => VStr ("Processed: " ++ s)
  | _ => VNil

/-! # Theorems for the claims -/

/-- C1: starting an agent run with the store holding a question and no
`search_results` key, the first analyze visit decides `"search"`
(search results absent), the search node writes `search_results` and
routes back, the second analyze visit decides `"process"`, and the run
visits `analyze, search, analyze, process` exactly once each in that
order before terminating. -/
theorem agent_cycle_visits_in_order (q : String) :
    flowRun 5 agentFlow agentFlow.start [("question", VStr q)] =
      .ok ([("question", VStr q),
            ("search_results", VStr ("Mock search results for: " ++ q)),
            ("context", VStr ("Mock search results for: " ++ q))],
           ["analyze", "search", "analyze", "process"]) := rfl

/-- C3 (code bug): on a store holding a string `question` and a string
`context`, a visit of the answer node does not produce an answer — the
Prepare phase omits `context` from the prepared map while Execute
asserts `data["context"].(string)`, so the node always fails with the
interface-conversion panic, for every API key and every completion
service. -/
theorem answer_node_context_assertion_panics (geminiKey : String)
    (llm : String → Except String String) :
    runNodeVisit (answerNode geminiKey llm)
      [("question", VStr "What is the capital of France?"),
       ("context", VStr " you are a helpful assistant. ")] =
      .error "node answer exec: panic: interface conversion" := rfl

/-- C9: `CallLLMWithConfig` never sends the caller's prompt verbatim —
the request text is always the prompt with the fixed markdown suffix
appended, and the same holds for the delegating `CallLLM` and
`CallLLMWithSearch`. -/
theorem llm_prompt_gets_markdown_suffix :
    (∀ (p : String) (cfg : LLMConfig) (us : Bool),
        (callLLMWithConfigRequest p cfg us).text = p ++ markdownSuffix
        ∧ (callLLMWithConfigRequest p cfg us).text ≠ p)
    ∧ (∀ dm p, (callLLMRequest dm p).text = p ++ markdownSuffix)
    ∧ (∀ dm p, (callLLMWithSearchRequest dm p).text = p ++ markdownSuffix) := by
  refine ⟨fun p cfg us => ⟨rfl, ?_⟩, fun dm p => rfl, fun dm p => rfl⟩
  intro hco
  have hco' : p ++ markdownSuffix = p := hco
  have hlen := congrArg String.length hco'
  rw [String.length_append] at hlen
  have hpos : 0 < markdownSuffix.length := by decide
  omega

/-- Witness for C9 at a concrete prompt. -/
theorem llm_prompt_gets_markdown_suffix_witness :
    (callLLMRequest "" "hi").text = "hi" ++ markdownSuffix :=
  llm_prompt_gets_markdown_suffix.2.1 "" "hi"

/-- C10: the history accessor is total — every stored shape of the
`history` value normalizes to a `History` without failure: a `History`
is returned as-is, a `[]Conversation` is wrapped, nil and an absent
key give the empty history, a `[]interface{}` is converted item-wise,
and every other shape maps to the empty history. -/
theorem get_history_total_normalization :
    (∀ h, getHistoryVal (VHist h) = h)
    ∧ (∀ cs, getHistoryVal (VConvs cs) = History.mk cs)
    ∧ getHistoryVal VNil = History.mk []
    ∧ (∀ l, getHistoryVal (VList l) = History.mk (convsFromItems l))
    ∧ (∀ s, getHistoryVal (VStr s) = History.mk [])
    ∧ (∀ l, getHistoryVal (VStrList l) = History.mk [])
    ∧ (∀ m, getHistoryVal (VStrMap m) = History.mk [])
    ∧ (∀ m, getHistoryVal (VMap m) = History.mk [])
    ∧ (∀ st : Store, storeGet st "history" = none → getHistory st = History.mk []) := by
  refine ⟨fun h => rfl, fun cs => rfl, rfl, fun l => rfl, fun s => rfl,
    fun l => rfl, fun m => rfl, fun m => rfl, fun st h => ?_⟩
  simp [getHistory, h, getHistoryVal]

/-- Witness for C10 at a concrete store without a `history` key. -/
theorem get_history_total_normalization_witness :
    getHistory ([] : Store) = History.mk [] :=
  get_history_total_normalization.2.2.2.2.2.2.2.2 [] rfl

/-- C6 (code bug): the two `utils/llm.go` call sites configure finite
client timeouts (60s and 90s), but the Tavily search call in the
search node's Execute goes through `http.Post`, i.e. the default
client whose timeout is the zero value — so not every external call
site carries a finite timeout. -/
theorem external_call_timeout_gap :
    llmTextClient.timeoutSeconds = 60
    ∧ llmImagesClient.timeoutSeconds = 90
    ∧ tavilySearchClient.timeoutSeconds = 0
    ∧ tavilySearchClient ∈ externalCallClients
    ∧ ¬ (∀ c ∈ externalCallClients, 0 < c.timeoutSeconds) := by
  refine ⟨rfl, rfl, rfl, by simp [externalCallClients], ?_⟩
  intro hall
  have h := hall tavilySearchClient (by simp [externalCallClients])
  simp [tavilySearchClient] at h

/-- C2 (counterexample): on a store whose `search_results` is the
string `"abc"`, a visit of the template revision's process node writes
the fixed string `"Processed information from search results"` — not a
copy of `search_results` — under `context`. -/
theorem process_node_copy_counterexample :
    runNodeVisit processNodeMock [("search_results", VStr "abc")] =
      .ok ([("search_results", VStr "abc"),
            ("context", VStr "Processed information from search results")],
           DefaultAction)
    ∧ ("Processed information from search results" : String) ≠ "abc" :=
  ⟨rfl, by decide⟩

/-- C2 (amended): the current revision's process node copies the
string stored under `search_results` verbatim into `context` and emits
the default action; the template revision's process node instead
writes the fixed placeholder string under `context`, also emitting the
default action. -/
theorem process_node_context_write (s : Store) (t : String)
    (h : storeGet s "search_results" = some (VStr t)) :
    runNodeVisit processNode s = .ok (storeSet s "context" (VStr t), DefaultAction)
    ∧ ∀ s' : Store, runNodeVisit processNodeMock s' =
        .ok (storeSet s' "context"
              (VStr "Processed information from search results"), DefaultAction) := by
  refine ⟨?_, fun s' => rfl⟩
  simp only [runNodeVisit, processNode, execWithRetry, attemptExec, postPhase,
    storeGet] at h ⊢
  rw [h]
  rfl

/-- Witness for C2's amended theorem at a concrete store. -/
theorem process_node_context_write_witness :
    runNodeVisit processNode [("question", VStr "q"), ("search_results", VStr "abc")] =
      .ok (storeSet [("question", VStr "q"), ("search_results", VStr "abc")]
            "context" (VStr "abc"), DefaultAction) :=
  (process_node_context_write
    [("question", VStr "q"), ("search_results", VStr "abc")] "abc" rfl).1

/-- C5: on every store without a `question` key, the Prepare functions
of the answer node and of the analyze node fail with the
missing-question error, and a visit of either node propagates that
failure immediately — unchanged by any retry count or fallback
configuration, since retry and fallback apply only to Execute. -/
theorem missing_question_prep_error_not_retried
    (geminiKey : String) (llm : String → Except String String)
    (k : Nat) (fb : Option (Value → Except String Value)) (s : Store)
    (h : storeGet s "question" = none) :
    (answerNode geminiKey llm).prep s = .error "no question found in shared store"
    ∧ analyzeNode.prep s = .error "no question found in shared store"
    ∧ runNodeVisit { answerNode geminiKey llm with maxRetries := k, fallback := fb } s
        = .error "node answer prep: no question found in shared store"
    ∧ runNodeVisit { analyzeNode with maxRetries := k, fallback := fb } s
        = .error "node analyze prep: no question found in shared store" := by
  refine ⟨?_, ?_, ?_, ?_⟩ <;>
    simp [answerNode, analyzeNode, runNodeVisit, h]

/-- Witness for C5 at the empty store. -/
theorem missing_question_prep_error_not_retried_witness :
    analyzeNode.prep [] = .error "no question found in shared store" :=
  (missing_question_prep_error_not_retried "" (fun _ => .error "") 0 none [] rfl).2.1

/-- C4: no node's Prepare mutates the shared store — for every node
implementation in the repository, a successful Prepare hands on
exactly the store it received.  (Execute functions receive only the
prepared value — their embedded type `Value → Except String Value`
mirrors the Go signature, which gives them no access to the store at
all — so Set calls can occur only in Post.) -/
theorem store_writes_only_in_post (geminiKey : String)
    (llm : String → Except String String) (tavilyKey : String)
    (searchHTTP : String → String → Except String (List SearchResult)) :
    PrepPreservesStore (answerNode geminiKey llm)
    ∧ PrepPreservesStore analyzeNode
    ∧ PrepPreservesStore searchNodeMock
    ∧ PrepPreservesStore (searchNodeTavily tavilyKey searchHTTP)
    ∧ PrepPreservesStore processNode
    ∧ PrepPreservesStore processNodeMock
    ∧ PrepPreservesStore loadItemsNode
    ∧ PrepPreservesStore aggregateNode := by
  refine ⟨?_, ?_, ?_, ?_, ?_, ?_, ?_, ?_⟩ <;> intro s s' v h
  · cases hq : storeGet s "question" with
    | none => simp [answerNode, hq] at h
    | some q => simp [answerNode, hq] at h; exact h.1.symm
  · cases hq : storeGet s "question" with
    | none => simp [analyzeNode, hq] at h
    | some q => simp [analyzeNode, hq] at h; exact h.1.symm
  · cases hq : storeGet s "question" with
    | none => simp [searchNodeMock, hq] at h
    | some q => simp [searchNodeMock, hq] at h; exact h.1.symm
  · cases hq : storeGet s "question" with
    | none => simp [searchNodeTavily, hq] at h
    | some q =>
      simp only [searchNodeTavily, hq] at h
      split at h
      · simp at h
      · cases q <;> simp [asString, Except.map] at h
        exact h.1.symm
  · simp [processNode] at h; exact h.1.symm
  · simp [processNodeMock] at h; exact h.1.symm
  · simp [loadItemsNode] at h; exact h.1.symm
  · cases hq : storeGet s KeyResults with
    | none => simp [aggregateNode, hq] at h
    | some r => simp [aggregateNode, hq] at h; exact h.1.symm

/-- Witness for C4: the analyze node's Prepare leaves a concrete store
unchanged. -/
theorem store_writes_only_in_post_witness :
    ([("question", VStr "q")] : Store) = [("question", VStr "q")] :=
  (store_writes_only_in_post "" (fun _ => .error "") ""
      (fun _ _ => .ok [])).2.1 [("question", VStr "q")] _ _ rfl

/-- All Execute attempts of a node whose Execute fails
deterministically fail with the same error. -/
theorem attemptExec_const_error (n : NodeDef) (p : Value) (e : String)
    (hfail : n.exec p = .error e) : ∀ k, attemptExec n p k = .error e := by
  intro k
  induction k with
  | zero => exact hfail
  | succ k ih => simp [attemptExec, hfail, ih]

/-- C7: for a node whose Execute fails on every attempt (any retry
count): when a fallback is configured and succeeds, its result
substitutes for Execute's result and the visit continues into Post;
when no fallback is configured, the visit fails with an error naming
that node, and a Flow run positioned at that node aborts with the same
error. -/
theorem retry_exhaustion_fallback_or_abort (n : NodeDef) (s s1 : Store)
    (p : Value) (e : String)
    (hprep : n.prep s = .ok (s1, p)) (hfail : n.exec p = .error e) :
    (∀ g r, n.fallback = some g → g p = .ok r →
        runNodeVisit n s = postPhase n s1 p r)
    ∧ (n.fallback = none →
        runNodeVisit n s = .error ("node " ++ n.id ++ " exec: " ++ e)
        ∧ ∀ (f : Flow) (fuel : Nat) (cur : String),
            assocLookup f.nodes cur = some n →
            flowRun (fuel + 1) f cur s =
              .error ("node " ++ n.id ++ " exec: " ++ e)) := by
  have hatt := attemptExec_const_error n p e hfail n.maxRetries
  constructor
  · intro g r hg hr
    simp [runNodeVisit, hprep, execWithRetry, hatt, hg, hr]
  · intro hnone
    have hvisit : runNodeVisit n s = .error ("node " ++ n.id ++ " exec: " ++ e) := by
      simp [runNodeVisit, hprep, execWithRetry, hatt, hnone]
    refine ⟨hvisit, fun f fuel cur hcur => ?_⟩
    simp [flowRun, hcur, hvisit]

/-- Witness for C7: a concrete node whose Execute always fails and
whose fallback succeeds continues into Post with the fallback's
result. -/
theorem retry_exhaustion_fallback_or_abort_witness :
    runNodeVisit flakyNode [] = postPhase flakyNode [] VNil (VStr "fallback result") :=
  (retry_exhaustion_fallback_or_abort flakyNode [] [] VNil "boom" rfl rfl).1
    _ (VStr "fallback result") rfl rfl

/-- A completing item task does not change the number of slots. -/
theorem fillSlot_length (f : Value → Except String Value) (items : List Value)
    (slots : List (Option (Except String Value))) (i : Nat) :
    (fillSlot f items slots i).length = slots.length := by
  unfold fillSlot
  cases h : items[i]? <;> simp

/-- After the tasks complete in any order covering every item index,
the slots hold exactly the per-item results, index-addressed. -/
theorem fillSlots_complete (f : Value → Except String Value)
    (items : List Value) (ord : List Nat)
    (slots : List (Option (Except String Value)))
    (hlen : slots.length = items.length)
    (hinv : ∀ j, j < items.length →
        slots[j]? = (items.map (fun a => some (f a)))[j]? ∨ j ∈ ord) :
    fillSlots f items ord slots = items.map (fun a => some (f a)) := by
  induction ord generalizing slots with
  | nil =>
    simp only [fillSlots]
    apply List.ext_getElem?
    intro j
    by_cases hj : j < items.length
    · rcases hinv j hj with h | h
      · exact h
      · simp at h
    · rw [List.getElem?_eq_none (show slots.length ≤ j by omega),
        List.getElem?_eq_none
          (show (items.map fun a => some (f a)).length ≤ j by
            rw [List.length_map]; omega)]
  | cons i rest ih =>
    show fillSlots f items rest (fillSlot f items slots i) = _
    apply ih
    · rw [fillSlot_length]; exact hlen
    · intro j hj
      by_cases hji : j = i
      · subst hji
        left
        have hjs : j < slots.length := by omega
        have hget : items[j]? = some items[j] := List.getElem?_eq_getElem hj
        simp only [fillSlot, hget]
        rw [List.getElem?_set_self', List.getElem?_eq_getElem hjs]
        simp [hget]
      · rcases hinv j hj with h | h
        · left
          unfold fillSlot
          cases hg : items[i]?
          · exact h
          · rw [List.getElem?_set_ne (fun hc => hji hc.symm)]
            exact h
        · rcases List.mem_cons.mp h with h | h
          · exact absurd h hji
          · right; exact h

/-- Collecting slots that all hold successful results yields the list
of results in item order. -/
theorem collectSlots_map (f : Value → Except String Value) (g : Value → Value)
    (items : List Value) (hf : ∀ a ∈ items, f a = .ok (g a)) :
    collectSlots (items.map (fun a => some (f a))) = .ok (items.map g) := by
  induction items with
  | nil => rfl
  | cons a rest ih =>
    have ha : f a = .ok (g a) := hf a (by simp)
    have hrest := ih (fun b hb => hf b (by simp [hb]))
    simp [collectSlots, ha, hrest, Except.map]

/-- C8: a concurrent BatchNode run over any items collection, with an
arbitrary task-completion order covering every item index and a
per-item function computing `g` on each item, produces exactly the
input-ordered results `items.map g`: the output length equals the
input length and the entry at each index is the image of the input at
that index, regardless of completion order. -/
theorem concurrent_batch_order_independent (f : Value → Except String Value)
    (g : Value → Value) (items : List Value) (ord : List Nat)
    (hcov : ∀ j, j < items.length → j ∈ ord)
    (hf : ∀ a ∈ items, f a = .ok (g a)) :
    runConcurrentBatch f items ord = .ok (items.map g)
    ∧ (items.map g).length = items.length
    ∧ ∀ j : Nat, (items.map g)[j]? = Option.map g items[j]? := by
  refine ⟨?_, by simp, fun j => by simp⟩
  unfold runConcurrentBatch
  rw [fillSlots_complete]
  · exact collectSlots_map f g items hf
  · simp
  · intro j hj
    right
    exact hcov j hj

/-- Witness for C8: the batch per-item function of
`CreateBatchProcessNode` over three items completing in the order
2, 0, 1 still yields the input-ordered results. -/
theorem concurrent_batch_order_independent_witness :
    runConcurrentBatch batchItemProcess sampleItems [2, 0, 1] =
      .ok [VStr "Processed: Item 1", VStr "Processed: Item 2",
           VStr "Processed: Item 3"] := by
  have h := (concurrent_batch_order_independent batchItemProcess batchItemResult
      sampleItems [2, 0, 1]
      (by
        intro j hj
        have hj3 : j < 3 := hj
        interval_cases j <;> decide)
      (by intro a ha; fin_cases ha <;> rfl)).1
  exact h

end AiWraper
